import Mathlib

/-
Shallow embedding of the same-file core (src/unix.rs).

The Rust source is a small file-identity library: a Key (device number,
inode number) derived from OS metadata, and a Handle owning an open File
together with a standard-stream flag and the cached Key.

Modelling decisions:
  - u64 metadata fields become Nat; the code never does arithmetic on
    them, only equality, copying and hashing, so no wraparound is needed.
  - io::Error is abstracted to a Nat error code carried through Except.
  - The operating system is an explicit state record: the list of open
    descriptors, a log of close() calls (most recent first), the next
    descriptor number the kernel hands out, and two oracles: the result
    of opening a path with given OpenOptions, and the result of fstat on
    a descriptor. Oracles are unchanged by the operations.
  - A Rust panic (Option::unwrap on None) is modelled as the value none
    of an Option-returning function.
  - Dropping an owned File closes its descriptor; File::into_raw_fd
    relinquishes the descriptor without closing it.
-/

namespace SameFile

/-- Abstract I/O error code standing in for std::io::Error. -/
abbrev IOErr := Nat

/-- Metadata returned by fstat: the fields read by the code via
MetadataExt (md.dev(), md.ino()). -/
structure Metadata where
  dev : Nat
  ino : Nat
deriving DecidableEq

/-- An open file object; only its raw descriptor number is observable. -/
structure File where
  fd : Nat
deriving DecidableEq

/-- std::fs::OpenOptions: only the read/write access flags matter to this
code. `new()` starts with both cleared. -/
structure OpenOptions where
  readAccess : Bool
  writeAccess : Bool
deriving DecidableEq

/-- OpenOptions::new(): all access flags cleared. -/
def OpenOptions.new : OpenOptions :=
  { readAccess := false, writeAccess := false }

/-- OpenOptions::read(b): request read access. -/
def OpenOptions.read (o : OpenOptions) (b : Bool) : OpenOptions :=
  { o with readAccess := b }

/-- OpenOptions::write(b): request write access. -/
def OpenOptions.write (o : OpenOptions) (b : Bool) : OpenOptions :=
  { o with writeAccess := b }

/-- Abstract operating-system state. `lookup` says whether opening a path
with given options succeeds; `fstat` gives the metadata of a descriptor.
`openFds` is the set of descriptors currently open in the process and
`closeLog` records every close() performed, most recent first. -/
structure OS where
  openFds : List Nat
  nextFd : Nat
  closeLog : List Nat
  lookup : String → OpenOptions → Except IOErr Unit
  fstat : Nat → Except IOErr Metadata

/-- close(fd): the descriptor leaves the open set and the call is logged. -/
def OS.close (os : OS) (fd : Nat) : OS :=
  { os with openFds := os.openFds.erase fd, closeLog := fd :: os.closeLog }

/-- OpenOptions::open(path): on success the kernel allocates a fresh
descriptor for the file; on failure the state is untouched. -/
def OpenOptions.openPath (o : OpenOptions) (p : String) (os : OS) :
    Except IOErr File × OS :=
  match os.lookup p o with
  | .error e => (.error e, os)
  | .ok _ =>
      (.ok ⟨os.nextFd⟩,
       { os with openFds := os.nextFd :: os.openFds, nextFd := os.nextFd + 1 })

/-- file.metadata(): fstat on the open descriptor (not on any path). -/
def File.metadata (f : File) (os : OS) : Except IOErr Metadata :=
  os.fstat f.fd

/-- File::from_raw_fd(fd): adopt an existing raw descriptor (unsafe in
the source; a pure wrapping here). -/
def File.from_raw_fd (fd : Nat) : File :=
  ⟨fd⟩

/-- Low level key structure: device number and inode (src/unix.rs Key). -/
structure Key where
  dev : Nat
  ino : Nat
deriving DecidableEq

/-- Derived PartialEq for Key: both fields compared. -/
def Key.beq (k1 k2 : Key) : Bool :=
  k1.dev == k2.dev && k1.ino == k2.ino

/-- The Handle struct: an optional owned File, the standard-stream flag,
and the cached Key (src/unix.rs Handle). -/
structure Handle where
  file : Option File
  is_std : Bool
  key : Key
deriving DecidableEq

/-- PartialEq for Handle: compares only the keys (src/unix.rs lines 39-43). -/
def Handle.beq (h1 h2 : Handle) : Bool :=
  Key.beq h1.key h2.key

/-- An abstract hasher with state type σ: all the derived Hash
implementations do is feed u64 words into it by write_u64. -/
structure Hasher (σ : Type) where
  write_u64 : σ → Nat → σ

/-- Derived Hash for Key: feeds dev then ino to the hasher. -/
def Key.hash {σ : Type} (H : Hasher σ) (k : Key) (s : σ) : σ :=
  H.write_u64 (H.write_u64 s k.dev) k.ino

/-- Hash for Handle: delegates to the hash of the key
(src/unix.rs lines 61-65). -/
def Handle.hash {σ : Type} (H : Hasher σ) (h : Handle) (s : σ) : σ :=
  Key.hash H h.key s

/-- Handle::from_file: fstat the open reference; on failure the `?`
operator drops the owned File, which closes its descriptor; on success
the File is moved into the Handle with the flag unset and the key built
from md.dev()/md.ino() (src/unix.rs lines 72-82). -/
def Handle.from_file (f : File) (os : OS) : Except IOErr Handle × OS :=
  match f.metadata os with
  | .error e => (.error e, os.close f.fd)
  | .ok md =>
      (.ok { file := some f, is_std := false,
             key := { dev := md.dev, ino := md.ino } }, os)

/-- Handle::from_path: open the path with OpenOptions::new().read(true),
propagate an open error verbatim via `?`, otherwise delegate the opened
File to from_file (src/unix.rs lines 68-70). -/
def Handle.from_path (p : String) (os : OS) : Except IOErr Handle × OS :=
  match (OpenOptions.new.read true).openPath p os with
  | (.error e, os') => (.error e, os')
  | (.ok f, os') => Handle.from_file f os'

/-- Handle::from_std: from_file, then map over the result setting the
standard-stream flag (src/unix.rs lines 84-89). -/
def Handle.from_std (f : File) (os : OS) : Except IOErr Handle × OS :=
  match Handle.from_file f os with
  | (.ok h, os') => (.ok { h with is_std := true }, os')
  | (.error e, os') => (.error e, os')

/-- Handle::stdin: adopt raw descriptor 0, then from_std
(src/unix.rs lines 91-93). -/
def Handle.stdin (os : OS) : Except IOErr Handle × OS :=
  Handle.from_std (File.from_raw_fd 0) os

/-- Handle::stdout: adopt raw descriptor 1, then from_std. -/
def Handle.stdout (os : OS) : Except IOErr Handle × OS :=
  Handle.from_std (File.from_raw_fd 1) os

/-- Handle::stderr: adopt raw descriptor 2, then from_std. -/
def Handle.stderr (os : OS) : Except IOErr Handle × OS :=
  Handle.from_std (File.from_raw_fd 2) os

/-- Handle::as_file: self.file.as_ref().take().unwrap(); the take acts on
a temporary copy, so the field is not modified; none models the unwrap
panic (src/unix.rs lines 103-107). -/
def Handle.as_file (h : Handle) : Option File :=
  h.file

/-- Handle::as_file_mut: same shape as as_file; the borrow does not
modify the field (src/unix.rs lines 109-113). -/
def Handle.as_file_mut (h : Handle) : Option File :=
  h.file

/-- Handle::dev: the dev field of the key (src/unix.rs lines 115-117). -/
def Handle.dev (h : Handle) : Nat :=
  h.key.dev

/-- Handle::ino: the ino field of the key (src/unix.rs lines 119-121). -/
def Handle.ino (h : Handle) : Nat :=
  h.key.ino

/-- Handle::as_key: Some(self.key.clone()) (src/unix.rs lines 123-125). -/
def Handle.as_key (h : Handle) : Option Key :=
  some h.key

/-- Drop for Handle (src/unix.rs lines 27-35): when is_std is set, take
the File and detach it via into_raw_fd, which does not close the
descriptor; the unwrap panics (none) if the File is absent. When is_std
is clear, the drop glue of the File field closes the descriptor. -/
def Handle.drop (h : Handle) (os : OS) : Option OS :=
  if h.is_std then
    match h.file with
    | none => none
    | some _ => some os
  else
    match h.file with
    | none => some os
    | some f => some (os.close f.fd)

/-- IntoRawFd for Handle (src/unix.rs lines 53-59): take the File out
(unwrap panics on none), detach its descriptor without closing, and then
the Handle itself is dropped, running Drop on a Handle whose file field
is now empty. -/
def Handle.into_raw_fd (h : Handle) (os : OS) : Option (Nat × OS) :=
  match h.file with
  | none => none
  | some f =>
      match Handle.drop { h with file := none } os with
      | none => none
      | some os' => some (f.fd, os')

/-- A Handle in the Open state: obtained from a successful run of one of
the public constructors and not yet consumed or destroyed. -/
inductive Constructed : Handle → Prop where
  | via_path (p : String) (os : OS) (h : Handle) (os' : OS) :
      Handle.from_path p os = (.ok h, os') → Constructed h
  | via_file (f : File) (os : OS) (h : Handle) (os' : OS) :
      Handle.from_file f os = (.ok h, os') → Constructed h
  | via_std (f : File) (os : OS) (h : Handle) (os' : OS) :
      Handle.from_std f os = (.ok h, os') → Constructed h
  | via_stdin (os : OS) (h : Handle) (os' : OS) :
      Handle.stdin os = (.ok h, os') → Constructed h
  | via_stdout (os : OS) (h : Handle) (os' : OS) :
      Handle.stdout os = (.ok h, os') → Constructed h
  | via_stderr (os : OS) (h : Handle) (os' : OS) :
      Handle.stderr os = (.ok h, os') → Constructed h

/-- A concrete OS for witnesses: descriptors 0-5 open, every path opens
successfully, every fstat answers device 7, inode 9. -/
def okOS : OS :=
  { openFds := [0, 1, 2, 3, 4, 5], nextFd := 6, closeLog := [],
    lookup := fun _ _ => .ok (), fstat := fun _ => .ok ⟨7, 9⟩ }

/-- A concrete OS for witnesses where every open fails with error 2
(ENOENT) and every fstat fails with error 9 (EBADF). -/
def errOS : OS :=
  { openFds := [], nextFd := 3, closeLog := [],
    lookup := fun _ _ => .error 2, fstat := fun _ => .error 9 }

/-- A concrete OS for witnesses where opening succeeds but fstat on the
fresh descriptor fails with error 5 (EIO). -/
def badStatOS : OS :=
  { openFds := [0, 1, 2], nextFd := 3, closeLog := [],
    lookup := fun _ _ => .ok (), fstat := fun _ => .error 5 }

/-- Claim C1: two Handles are equal iff their Keys are equal; two Keys are
equal iff their device numbers and inode numbers agree; Handle equality
never consults the file reference or the standard-stream flag (and takes
no path at all). -/
theorem handle_eq_iff_key_eq (h1 h2 : Handle) :
    (Handle.beq h1 h2 = true ↔ h1.key = h2.key)
    ∧ (∀ k1 k2 : Key, Key.beq k1 k2 = true ↔ k1.dev = k2.dev ∧ k1.ino = k2.ino)
    ∧ (∀ f1 f2 s1 s2,
        Handle.beq { h1 with file := f1, is_std := s1 }
                   { h2 with file := f2, is_std := s2 }
          = Handle.beq h1 h2) := by
  refine ⟨?_, ?_, ?_⟩
  · constructor
    · intro hb
      have := (by simpa [Handle.beq, Key.beq] using hb : h1.key.dev = h2.key.dev ∧ h1.key.ino = h2.key.ino)
      cases hk1 : h1.key
      cases hk2 : h2.key
      simp_all
    · intro hk
      simp [Handle.beq, Key.beq, hk]
  · intro k1 k2
    simp [Key.beq]
  · intro f1 f2 s1 s2
    rfl

/-- Witness for C1: two concrete Handles differing in file field and flag
but sharing a Key compare equal. -/
theorem handle_eq_iff_key_eq_witness :
    Handle.beq ⟨none, false, ⟨1, 2⟩⟩ ⟨some ⟨3⟩, true, ⟨1, 2⟩⟩ = true :=
  (handle_eq_iff_key_eq ⟨none, false, ⟨1, 2⟩⟩ ⟨some ⟨3⟩, true, ⟨1, 2⟩⟩).1.mpr rfl

/-- Claim C2: a Handle feeds exactly the data of its Key to any hasher, so
equal Handles hash identically under any hasher. -/
theorem handle_hash_eq_key_hash {σ : Type} (H : Hasher σ) :
    (∀ (h : Handle) (s : σ), Handle.hash H h s = Key.hash H h.key s)
    ∧ (∀ (h1 h2 : Handle) (s : σ), Handle.beq h1 h2 = true →
        Handle.hash H h1 s = Handle.hash H h2 s) := by
  constructor
  · intro h s
    rfl
  · intro h1 h2 s hb
    have := (by simpa [Handle.beq, Key.beq] using hb : h1.key.dev = h2.key.dev ∧ h1.key.ino = h2.key.ino)
    simp [Handle.hash, Key.hash, this.1, this.2]

/-- A concrete hasher over Nat states for the C2 witness. -/
def natHasher : Hasher Nat :=
  { write_u64 := fun s w => s * 1000003 + w }

/-- Witness for C2: two concrete Handles that differ in their file field
and flag but share a Key hash identically. -/
theorem handle_hash_eq_key_hash_witness :
    Handle.beq ⟨none, false, ⟨2, 3⟩⟩ ⟨some ⟨4⟩, true, ⟨2, 3⟩⟩ = true ∧
    Handle.hash natHasher ⟨none, false, ⟨2, 3⟩⟩ 0
      = Handle.hash natHasher ⟨some ⟨4⟩, true, ⟨2, 3⟩⟩ 0 :=
  ⟨by decide, (handle_hash_eq_key_hash natHasher).2 _ _ 0 (by decide)⟩

/-- Claim C3: as_key always returns the stored Key, never none; being a
pure copy, repeated calls agree and equal the stored Key. -/
theorem as_key_total (h : Handle) :
    Handle.as_key h = some h.key
    ∧ (Handle.as_key h).isSome = true
    ∧ Handle.as_key h = Handle.as_key h := by
  exact ⟨rfl, rfl, rfl⟩

/-- Witness for C3: as_key on a concrete Handle is the stored Key. -/
theorem as_key_total_witness :
    Handle.as_key ⟨none, false, ⟨1, 2⟩⟩ = some ⟨1, 2⟩ :=
  (as_key_total ⟨none, false, ⟨1, 2⟩⟩).1

/-- Claim C4: dropping a Handle holding a file: with the standard-stream
flag set, the descriptor is detached without any close call (the OS state
is untouched: nothing leaves the open set and the close log does not
grow); with the flag unset, the descriptor is closed exactly once (one
new entry in the close log). -/
theorem drop_spec (h : Handle) (f : File) (os : OS) (hf : h.file = some f) :
    (h.is_std = true → Handle.drop h os = some os)
    ∧ (h.is_std = false →
        Handle.drop h os = some (os.close f.fd)
        ∧ (os.close f.fd).closeLog = f.fd :: os.closeLog
        ∧ (os.close f.fd).openFds = os.openFds.erase f.fd) := by
  constructor
  · intro hs
    simp [Handle.drop, hs, hf]
  · intro hs
    refine ⟨?_, rfl, rfl⟩
    simp [Handle.drop, hs, hf]

/-- Witness for C4: drop of a concrete std Handle leaves the OS alone;
drop of a concrete non-std Handle closes its descriptor once. -/
theorem drop_spec_witness :
    (Handle.drop ⟨some ⟨5⟩, true, ⟨7, 9⟩⟩ okOS = some okOS)
    ∧ (Handle.drop ⟨some ⟨5⟩, false, ⟨7, 9⟩⟩ okOS = some (okOS.close 5)
        ∧ (okOS.close 5).closeLog = 5 :: okOS.closeLog
        ∧ (okOS.close 5).openFds = okOS.openFds.erase 5) :=
  ⟨(drop_spec ⟨some ⟨5⟩, true, ⟨7, 9⟩⟩ ⟨5⟩ okOS rfl).1 rfl,
   (drop_spec ⟨some ⟨5⟩, false, ⟨7, 9⟩⟩ ⟨5⟩ okOS rfl).2 rfl⟩

/-- Claim C6: from_file takes ownership of the File, derives the Key by
fstat on the open descriptor (never a path), stores (dev, ino), leaves
the standard-stream flag unset, and fails exactly when fstat fails,
with the same error. -/
theorem from_file_spec (f : File) (os : OS) :
    (∀ md, os.fstat f.fd = .ok md →
        Handle.from_file f os
          = (.ok { file := some f, is_std := false,
                   key := { dev := md.dev, ino := md.ino } }, os))
    ∧ (∀ e, os.fstat f.fd = .error e →
        (Handle.from_file f os).1 = .error e) := by
  constructor
  · intro md hmd
    simp [Handle.from_file, File.metadata, hmd]
  · intro e he
    simp [Handle.from_file, File.metadata, he]

/-- Witness for C6: a concrete successful fstat yields the expected
Handle, and a concrete failing fstat yields the same error. -/
theorem from_file_spec_witness :
    (okOS.fstat 3 = .ok ⟨7, 9⟩
      ∧ Handle.from_file ⟨3⟩ okOS
          = (.ok { file := some ⟨3⟩, is_std := false, key := ⟨7, 9⟩ }, okOS))
    ∧ (errOS.fstat 3 = .error 9
      ∧ (Handle.from_file ⟨3⟩ errOS).1 = .error 9) :=
  ⟨⟨rfl, (from_file_spec ⟨3⟩ okOS).1 ⟨7, 9⟩ rfl⟩,
   ⟨rfl, (from_file_spec ⟨3⟩ errOS).2 9 rfl⟩⟩

/-- Claim C5: construction is atomic. A successful from_path returns a
Handle whose reference is open (its descriptor is in the open set) with
the key derived from fstat; a failing from_path leaks no descriptor (the
open set is exactly what it was); in particular when the open succeeds
and fstat then fails, the just-opened descriptor is closed (logged)
before the error propagates; and a failing from_file closes the File it
was given. -/
theorem construction_atomic (p : String) (f : File) (os : OS) :
    (∀ h os', Handle.from_path p os = (.ok h, os') →
        ∃ fl md, h.file = some fl ∧ fl.fd ∈ os'.openFds
          ∧ os.fstat fl.fd = .ok md ∧ h.key = { dev := md.dev, ino := md.ino })
    ∧ (∀ e os', Handle.from_path p os = (.error e, os') →
        os'.openFds = os.openFds)
    ∧ (∀ e, os.lookup p (OpenOptions.new.read true) = .ok ()
        → os.fstat os.nextFd = .error e →
        Handle.from_path p os
          = (.error e, { os with nextFd := os.nextFd + 1,
                                 closeLog := os.nextFd :: os.closeLog }))
    ∧ (∀ e, os.fstat f.fd = .error e →
        Handle.from_file f os = (.error e, os.close f.fd)) := by
  refine ⟨?_, ?_, ?_, ?_⟩
  · intro h os' hp
    rcases hl : os.lookup p (OpenOptions.new.read true) with e | u
    · simp [Handle.from_path, OpenOptions.openPath, hl] at hp
    · rcases hs : os.fstat os.nextFd with e | md
      · simp [Handle.from_path, OpenOptions.openPath, hl,
              Handle.from_file, File.metadata, hs] at hp
      · simp only [Handle.from_path, OpenOptions.openPath, hl,
                   Handle.from_file, File.metadata, hs, Prod.mk.injEq,
                   Except.ok.injEq] at hp
        obtain ⟨hh, hos⟩ := hp
        subst hh
        subst hos
        refine ⟨⟨os.nextFd⟩, md, rfl, ?_, hs, rfl⟩
        simp
  · intro e os' hp
    rcases hl : os.lookup p (OpenOptions.new.read true) with e0 | u
    · simp only [Handle.from_path, OpenOptions.openPath, hl] at hp
      obtain ⟨-, hos⟩ := Prod.mk.injEq .. ▸ hp
      subst hos
      rfl
    · rcases hs : os.fstat os.nextFd with e0 | md
      · simp only [Handle.from_path, OpenOptions.openPath, hl,
                   Handle.from_file, File.metadata, hs] at hp
        obtain ⟨-, hos⟩ := Prod.mk.injEq .. ▸ hp
        subst hos
        simp [OS.close]
      · simp [Handle.from_path, OpenOptions.openPath, hl,
              Handle.from_file, File.metadata, hs] at hp
  · intro e hl hs
    simp only [Handle.from_path, OpenOptions.openPath, hl,
               Handle.from_file, File.metadata, hs, OS.close]
    simp [List.erase_cons_head]
  · intro e he
    simp [Handle.from_file, File.metadata, he]

/-- Witness for C5: all four clauses at concrete inputs — a successful
construction, a failed open, a failed fstat after a successful open, and
a from_file whose fstat fails. -/
theorem construction_atomic_witness :
    (∃ fl md,
        ({ file := some ⟨6⟩, is_std := false, key := ⟨7, 9⟩ } : Handle).file = some fl
          ∧ fl.fd ∈ ({ okOS with openFds := 6 :: okOS.openFds, nextFd := 7 } : OS).openFds
          ∧ okOS.fstat fl.fd = .ok md
          ∧ ({ file := some ⟨6⟩, is_std := false, key := ⟨7, 9⟩ } : Handle).key
              = { dev := md.dev, ino := md.ino }) ∧
    ((Handle.from_path "a" errOS).2).openFds = errOS.openFds ∧
    Handle.from_path "a" badStatOS
      = (.error 5, { badStatOS with nextFd := badStatOS.nextFd + 1,
                                    closeLog := badStatOS.nextFd :: badStatOS.closeLog }) ∧
    Handle.from_file ⟨3⟩ errOS = (.error 9, errOS.close 3) := by
  refine ⟨?_, ?_, ?_, ?_⟩
  · exact (construction_atomic "a" ⟨0⟩ okOS).1
      { file := some ⟨6⟩, is_std := false, key := ⟨7, 9⟩ }
      { okOS with openFds := 6 :: okOS.openFds, nextFd := 7 } rfl
  · exact (construction_atomic "a" ⟨0⟩ errOS).2.1 2 errOS rfl
  · exact (construction_atomic "a" ⟨0⟩ badStatOS).2.2.1 5 rfl rfl
  · exact (construction_atomic "a" ⟨3⟩ errOS).2.2.2 9 rfl

/-- Claim C7: from_path opens with read access and no write access, a
failing open propagates its error verbatim with the state untouched, and
a successful open delegates the opened File to from_file. -/
theorem from_path_readonly (p : String) (os : OS) :
    (OpenOptions.new.read true).readAccess = true
    ∧ (OpenOptions.new.read true).writeAccess = false
    ∧ (∀ e, os.lookup p (OpenOptions.new.read true) = .error e →
        Handle.from_path p os = (.error e, os))
    ∧ (∀ f os', (OpenOptions.new.read true).openPath p os = (.ok f, os') →
        Handle.from_path p os = Handle.from_file f os') := by
  refine ⟨rfl, rfl, ?_, ?_⟩
  · intro e he
    simp [Handle.from_path, OpenOptions.openPath, he]
  · intro f os' ho
    rcases hl : os.lookup p (OpenOptions.new.read true) with e | u
    · simp [OpenOptions.openPath, hl] at ho
    · simp only [OpenOptions.openPath, hl, Prod.mk.injEq, Except.ok.injEq] at ho
      obtain ⟨hf, hos⟩ := ho
      subst hf
      subst hos
      simp [Handle.from_path, OpenOptions.openPath, hl]

/-- Witness for C7: on a concrete OS whose open fails with error 2, the
error comes back verbatim; on a concrete OS whose open succeeds,
from_path agrees with from_file on the fresh descriptor. -/
theorem from_path_readonly_witness :
    (OpenOptions.new.read true).readAccess = true
    ∧ (OpenOptions.new.read true).writeAccess = false
    ∧ Handle.from_path "a" errOS = (.error 2, errOS)
    ∧ Handle.from_path "a" okOS
        = Handle.from_file ⟨6⟩ { okOS with openFds := 6 :: okOS.openFds, nextFd := 7 } :=
  ⟨(from_path_readonly "a" errOS).1,
   (from_path_readonly "a" errOS).2.1,
   (from_path_readonly "a" errOS).2.2.1 2 rfl,
   (from_path_readonly "a" okOS).2.2.2 ⟨6⟩
     { okOS with openFds := 6 :: okOS.openFds, nextFd := 7 } rfl⟩

/-- Claim C8: from_std behaves exactly as from_file except that a
successful result carries the standard-stream flag set (same Handle
otherwise, so same key; same error and same state on failure); and
stdin, stdout, stderr adopt raw descriptors 0, 1, 2 and call from_std. -/
theorem from_std_spec (f : File) (os : OS) :
    ((Handle.from_std f os).2 = (Handle.from_file f os).2)
    ∧ (∀ h, (Handle.from_file f os).1 = .ok h →
        (Handle.from_std f os).1 = .ok { h with is_std := true })
    ∧ (∀ e, (Handle.from_file f os).1 = .error e →
        (Handle.from_std f os).1 = .error e)
    ∧ Handle.stdin os = Handle.from_std (File.from_raw_fd 0) os
    ∧ Handle.stdout os = Handle.from_std (File.from_raw_fd 1) os
    ∧ Handle.stderr os = Handle.from_std (File.from_raw_fd 2) os
    ∧ File.from_raw_fd 0 = ⟨0⟩ ∧ File.from_raw_fd 1 = ⟨1⟩
    ∧ File.from_raw_fd 2 = ⟨2⟩ := by
  refine ⟨?_, ?_, ?_, rfl, rfl, rfl, rfl, rfl, rfl⟩
  · rcases hf : Handle.from_file f os with ⟨r, os'⟩
    cases r <;> simp [Handle.from_std, hf]
  · intro h hh
    rcases hf : Handle.from_file f os with ⟨r, os'⟩
    rw [hf] at hh
    cases hh
    simp [Handle.from_std, hf]
  · intro e he
    rcases hf : Handle.from_file f os with ⟨r, os'⟩
    rw [hf] at he
    cases he
    simp [Handle.from_std, hf]

/-- Witness for C8: on a concrete OS, from_std returns the from_file
Handle with the flag set, and on a failing OS it returns the same
error. -/
theorem from_std_spec_witness :
    (Handle.from_std ⟨0⟩ okOS).1
      = .ok { file := some ⟨0⟩, is_std := true, key := ⟨7, 9⟩ }
    ∧ (Handle.from_std ⟨0⟩ errOS).1 = .error 9 :=
  ⟨(from_std_spec ⟨0⟩ okOS).2.1
     { file := some ⟨0⟩, is_std := false, key := ⟨7, 9⟩ } rfl,
   (from_std_spec ⟨0⟩ errOS).2.2.1 9 rfl⟩

/-- Every Handle produced by a successful from_file holds the given File. -/
theorem from_file_ok_file (f : File) (os : OS) (h : Handle) (os' : OS)
    (hf : Handle.from_file f os = (.ok h, os')) : h.file = some f := by
  rcases hs : os.fstat f.fd with e | md
  · simp [Handle.from_file, File.metadata, hs] at hf
  · simp only [Handle.from_file, File.metadata, hs, Prod.mk.injEq,
               Except.ok.injEq] at hf
    obtain ⟨hh, -⟩ := hf
    subst hh
    rfl

/-- Every Handle produced by a successful from_std holds the given File. -/
theorem from_std_ok_file (f : File) (os : OS) (h : Handle) (os' : OS)
    (hf : Handle.from_std f os = (.ok h, os')) : h.file = some f := by
  rcases hff : Handle.from_file f os with ⟨r, os''⟩
  cases r with
  | error e => simp [Handle.from_std, hff] at hf
  | ok h0 =>
      simp only [Handle.from_std, hff, Prod.mk.injEq, Except.ok.injEq] at hf
      obtain ⟨hh, -⟩ := hf
      subst hh
      exact from_file_ok_file f os h0 os'' hff

/-- Claim C9: every Handle in the Open state (obtained from a successful
public constructor) has its file reference present, so as_file and
as_file_mut return the owned File and the internal unwrap cannot
panic. -/
theorem as_file_never_absent (h : Handle) (hc : Constructed h) :
    ∃ f, h.file = some f ∧ Handle.as_file h = some f
      ∧ Handle.as_file_mut h = some f := by
  have hf : ∃ f, h.file = some f := by
    cases hc with
    | via_path p os h os' hp =>
        rcases hl : os.lookup p (OpenOptions.new.read true) with e | u
        · simp [Handle.from_path, OpenOptions.openPath, hl] at hp
        · simp only [Handle.from_path, OpenOptions.openPath, hl] at hp
          exact ⟨_, from_file_ok_file _ _ _ _ hp⟩
    | via_file f os h os' hp => exact ⟨f, from_file_ok_file f os h os' hp⟩
    | via_std f os h os' hp => exact ⟨f, from_std_ok_file f os h os' hp⟩
    | via_stdin os h os' hp => exact ⟨_, from_std_ok_file _ os h os' hp⟩
    | via_stdout os h os' hp => exact ⟨_, from_std_ok_file _ os h os' hp⟩
    | via_stderr os h os' hp => exact ⟨_, from_std_ok_file _ os h os' hp⟩
  obtain ⟨f, hf⟩ := hf
  exact ⟨f, hf, hf, hf⟩

/-- Witness for C9: a concrete Handle constructed by from_file on a
concrete OS has its file present and both accessors return it. -/
theorem as_file_never_absent_witness :
    ∃ f, ({ file := some ⟨3⟩, is_std := false, key := ⟨7, 9⟩ } : Handle).file = some f
      ∧ Handle.as_file { file := some ⟨3⟩, is_std := false, key := ⟨7, 9⟩ } = some f
      ∧ Handle.as_file_mut { file := some ⟨3⟩, is_std := false, key := ⟨7, 9⟩ } = some f :=
  as_file_never_absent _ (Constructed.via_file ⟨3⟩ okOS _ okOS rfl)

/-- Claim C10 is false of the code: converting a standard-stream Handle
into a raw descriptor first takes the File out, and then the destructor
runs on that Handle with the file field empty, so its unwrap panics.
Concretely: stdin() on an OS where every fstat succeeds yields a Handle
with the flag set and the file present, yet into_raw_fd on it panics
(none), precisely because Drop runs on the emptied Handle. -/
theorem std_into_raw_fd_drop_panics :
    ∃ h os', Handle.stdin okOS = (.ok h, os')
      ∧ h.is_std = true
      ∧ h.file = some ⟨0⟩
      ∧ Handle.into_raw_fd h os' = none
      ∧ Handle.drop { h with file := none } os' = none :=
  ⟨{ file := some ⟨0⟩, is_std := true, key := ⟨7, 9⟩ }, okOS,
   rfl, rfl, rfl, rfl, rfl⟩

end SameFile
